import Mathlib

/-!
Verification of the copepod/pipe deployment tool (Go sources under
internal/config, internal/ssh, internal/docker, internal/deploy) against its
natural-language specification.  The Go code is shallowly embedded: every
command the pipelines would run is represented by the exact command string the
Go code composes, the external world (shell, remote docker daemon, local
filesystem) is an oracle passed in as a function, and each pipeline returns
its result together with the ordered trace of command descriptions it issued
(the description literals are the ones passed to ssh.ExecuteCommand in the
source).

String operations are re-implemented structurally over character lists so that
all definitions evaluate by kernel reduction; they mirror Go's strings.Split,
strings.TrimSpace, strings.Contains and strings.ToLower at the ASCII level
used by the program.
-/

/-- Kernel-computable substring test over character lists: `subList n h` is
true iff `n` occurs contiguously in `h` (Go `strings.Contains`). -/
def subList (needle : List Char) : List Char → Bool
  | [] => needle.isEmpty
  | c :: rest => needle.isPrefixOf (c :: rest) || subList needle rest

/-- Go `strings.Contains s sub`. -/
def strContainsSub (s sub : String) : Bool :=
  subList sub.data s.data

/-- Trim ASCII whitespace from both ends of a character list. -/
def trimChars (l : List Char) : List Char :=
  ((l.dropWhile Char.isWhitespace).reverse.dropWhile Char.isWhitespace).reverse

/-- Go `strings.TrimSpace`. -/
def strTrim (s : String) : String :=
  ⟨trimChars s.data⟩

/-- Fuel-driven worker for `strSplitOn`; the fuel starts at the haystack
length, and every step consumes at least one character, so the fuel never
runs out on the initial call. -/
def splitGo (sep : List Char) : Nat → List Char → List Char → List (List Char)
  | _, [], acc => [acc.reverse]
  | 0, rest, acc => [acc.reverse ++ rest]
  | Nat.succ fuel, c :: rest, acc =>
    if sep.isPrefixOf (c :: rest) then
      acc.reverse :: splitGo sep fuel (List.drop sep.length (c :: rest)) []
    else
      splitGo sep fuel rest (c :: acc)

/-- Go `strings.Split s sep` for a non-empty separator: splits around every
non-overlapping, leftmost-first occurrence of `sep`; always returns at least
one piece. -/
def strSplitOn (s sep : String) : List String :=
  if sep.data.isEmpty then [s]
  else (splitGo sep.data s.data.length s.data []).map (fun cs => ⟨cs⟩)

/-- Go `strings.ToLower` at the ASCII level. -/
def strToLower (s : String) : String :=
  ⟨s.data.map Char.toLower⟩

/-- Concatenation of a list of lines, each terminated by a newline: the shape
in which both stream readers accumulate lines into their builders. -/
def concatLines (xs : List String) : String :=
  xs.foldr (fun l acc => l ++ "\n" ++ acc) ""

/-- The deployment configuration record (internal/config.Config).  BuildArgs
is a Go map iterated in an environment-chosen order; it is embedded as the
association list in that order. -/
structure Config where
  Host : String
  User : String
  Image : String
  Dockerfile : String
  Tag : String
  Platform : String
  SSHKey : String
  ContainerName : String
  ContainerPort : String
  HostPort : String
  EnvFile : String
  Rollback : Bool
  BuildArgs : List (String × String)
  Network : String
  Volumes : List String
  CPUs : String
  Memory : String
deriving DecidableEq

/-- The flag-default configuration produced by config.Load with no flags or
environment variables set, with a host and user supplied. -/
def cfg0 : Config :=
  { Host := "example.com", User := "deploy", Image := "app",
    Dockerfile := "Dockerfile", Tag := "latest", Platform := "linux/amd64",
    SSHKey := "", ContainerName := "app", ContainerPort := "3000",
    HostPort := "3000", EnvFile := "", Rollback := false, BuildArgs := [],
    Network := "", Volumes := [], CPUs := "", Memory := "" }

/-- ssh.GetKeyFlag: `-i <key>` when an SSH key is configured, else empty. -/
def getKeyFlag (cfg : Config) : String :=
  if cfg.SSHKey ≠ "" then "-i " ++ cfg.SSHKey else ""

/-- ssh.GetCommand: the SSH invocation wrapping every remote command. -/
def getCommand (cfg : Config) : String :=
  if getKeyFlag cfg ≠ "" then
    "ssh " ++ getKeyFlag cfg ++ " " ++ cfg.User ++ "@" ++ cfg.Host
  else
    "ssh " ++ cfg.User ++ "@" ++ cfg.Host

/-- ssh.Check's probe command. -/
def sshCheckCmd (cfg : Config) : String :=
  getCommand cfg ++ " echo \"SSH connection successful\""

/-- The stderr-line classifier in ssh.ExecuteCommand's stderr reader:
`strings.Contains(line, "error") || strings.Contains(line, "Error")`. -/
def lineIsError (line : String) : Bool :=
  strContainsSub line "error" || strContainsSub line "Error"

/-- Modelled from the spec: the spec's classifier, which calls a stderr line
an error line when it case-insensitively contains the substring "error".
Declared only to be compared with the source classifier `lineIsError`. -/
def specLineIsErrorCI (line : String) : Bool :=
  strContainsSub (strToLower line) "error"

/-- The stderr reader goroutine of ssh.ExecuteCommand, per stream: given the
stderr lines in order it returns (text appended to the stdout builder, text
appended to the stderr builder, lines echoed to the console in order).  Lines
classified by `lineIsError` go to the stderr builder and are echoed with an
"ERROR: " prefix; all other lines go to the stdout builder and are echoed
verbatim. -/
def readStderr : List String → String × String × List String
  | [] => ("", "", [])
  | l :: ls =>
    let r := readStderr ls
    if lineIsError l then
      (r.1, l ++ "\n" ++ r.2.1, ("ERROR: " ++ l) :: r.2.2)
    else
      (l ++ "\n" ++ r.1, r.2.1, l :: r.2.2)

/-- The stdout reader goroutine of ssh.ExecuteCommand: every line is appended
to the stdout builder and echoed verbatim. -/
def readStdout : List String → String × List String
  | [] => ("", [])
  | l :: ls =>
    let r := readStdout ls
    (l ++ "\n" ++ r.1, l :: r.2)

/-- docker.Check's remote probe. -/
def remoteDockerInfoCmd (cfg : Config) : String :=
  getCommand cfg ++ " \"docker info\""

/-- docker.Build's command string (Dockerfile existence is checked first by
the pipeline step). -/
def buildCmd (cfg : Config) : String :=
  (cfg.BuildArgs.foldl
      (fun acc kv => acc ++ " --build-arg " ++ kv.1 ++ "=" ++ kv.2)
      ("docker build --platform " ++ cfg.Platform))
    ++ " -t " ++ cfg.Image ++ ":" ++ cfg.Tag ++ " ."

/-- docker.Transfer's save-gzip-load pipe command. -/
def transferCmd (cfg : Config) : String :=
  "docker save " ++ cfg.Image ++ ":" ++ cfg.Tag ++ " | gzip | "
    ++ getCommand cfg ++ " docker load"

/-- docker.Deploy's containerConfig slice: the docker run arguments, with the
optional network, cpu, memory, volume and env-file flags appended exactly
when configured. -/
def containerConfig (cfg : Config) : List String :=
  ["-d", "--name", cfg.ContainerName, "--restart", "unless-stopped",
   "-p", cfg.HostPort ++ ":" ++ cfg.ContainerPort]
  ++ (if cfg.Network ≠ "" then ["--network", cfg.Network] else [])
  ++ (if cfg.CPUs ≠ "" then ["--cpus", cfg.CPUs] else [])
  ++ (if cfg.Memory ≠ "" then ["--memory", cfg.Memory] else [])
  ++ (cfg.Volumes.map (fun v => ["-v", v])).flatten
  ++ (if cfg.EnvFile ≠ "" then ["--env-file ~/" ++ cfg.EnvFile] else [])
  ++ [cfg.Image ++ ":" ++ cfg.Tag]

/-- docker.Deploy's compound remote command body: stop (tolerating absence),
remove (tolerating absence), run — joined by " && ". -/
def deployRemoteCommands (cfg : Config) : String :=
  "docker stop " ++ cfg.ContainerName ++ " || true && "
    ++ "docker rm " ++ cfg.ContainerName ++ " || true && "
    ++ "docker run " ++ String.intercalate " " (containerConfig cfg)

/-- docker.Deploy's full remote restart command. -/
def restartCmd (cfg : Config) : String :=
  getCommand cfg ++ " \"" ++ deployRemoteCommands cfg ++ "\""

/-- cleanupOldReleases' tag-listing command. -/
def listTagsCmd (cfg : Config) : String :=
  getCommand cfg ++ " \"docker images \x27" ++ cfg.Image
    ++ "\x27 --format \x27\x7b\x7b.Tag\x7d\x7d\x27\""

/-- cleanupOldReleases' per-tag removal command. -/
def removeTagCmd (cfg : Config) (tag : String) : String :=
  getCommand cfg ++ " \"docker rmi " ++ cfg.Image ++ ":" ++ tag ++ "\""

/-- The tags cleanupOldReleases removes, in removal order, as a function of
the raw tag-listing stdout: split the trimmed output on newlines; if at most
5 tags, remove nothing; otherwise reverse the list in place and remove the
entries beyond index 5, skipping empty strings. -/
def removedTagsOf (stdout : String) : List String :=
  let tags := strSplitOn (strTrim stdout) "\n"
  if tags.length ≤ 5 then []
  else (tags.reverse.drop 5).filter (fun t => t ≠ "")

/-- verifyContainer's status query command. -/
def verifyCmd (cfg : Config) : String :=
  getCommand cfg ++ " \"docker ps --filter name=" ++ cfg.ContainerName
    ++ " --format \x27\x7b\x7b.Status\x7d\x7d\x27\""

/-- verifyContainer's decision on the queried status text: success exactly
when it contains "Up", otherwise the container-not-running failure. -/
def statusIsUp (status : String) : Bool :=
  strContainsSub status "Up"

/-- deploy.copyEnvFile's scp command. -/
def copyEnvCmd (cfg : Config) : String :=
  "scp " ++ getKeyFlag cfg ++ " " ++ cfg.EnvFile ++ " " ++ cfg.User ++ "@"
    ++ cfg.Host ++ ":~/" ++ cfg.EnvFile

/-- Rollback's query for the live container's image reference. -/
def getCurrentImageCmd (cfg : Config) : String :=
  getCommand cfg ++ " \"docker inspect --format=\x27\x7b\x7b.Config.Image\x7d\x7d\x27 "
    ++ cfg.ContainerName ++ "\""

/-- Rollback's image-history listing command. -/
def getImagesCmd (cfg : Config) : String :=
  getCommand cfg ++ " \"docker images " ++ cfg.Image
    ++ " --format \x27\x7b\x7b.Repository\x7d\x7d:\x7b\x7b.Tag\x7d\x7d___\x7b\x7b.CreatedAt\x7d\x7d\x27 | sort -k2 -r\""

/-- The repository:tag part of one history line: everything before the first
"___" separator (Go `strings.Split(img, "___")[0]`). -/
def imageNameOf (img : String) : String :=
  (strSplitOn img "___").headD ""

/-- Rollback's scan over the history lines, mirroring the Go loop's per-index
condition `imageName == currentImage && i+1 < len(images)`: the first line
whose image name equals the current image and which has a successor line
yields that successor's image name; otherwise the empty string (Go leaves
previousImage empty). -/
def findPrevious (current : String) : List String → String
  | [] => ""
  | img :: rest =>
    if imageNameOf img = current ∧ rest ≠ [] then imageNameOf (rest.headD "")
    else findPrevious current rest

/-- The error kinds of the pipelines, one constructor per distinct failure
site in the source, carrying the message data the source's fmt.Errorf calls
carry. -/
inductive PError where
  | validationFailed
  | dockerfileNotFound (path : String)
  | cmdFailed (description msg : String)
  | containerNotRunning
  | noPreviousVersion
  | previousVersionNotFound
  | rollbackFailedRestored (origErr : String)
  | rollbackFailedRestoreFailed (restoreErr origErr : String)
  | rollbackVerifyFailedRestored
  | rollbackVerifyFailedRestoreFailed (restoreErr : String)
deriving DecidableEq

/-- Previous-version resolution from the split history lines and the current
image (deploy.Rollback lines 94-110): fewer than two records is
no-previous-version; a scan that ends with an empty previous image is
previous-version-not-found. -/
def resolvePreviousImage (images : List String) (current : String) :
    Except PError String :=
  if images.length < 2 then .error .noPreviousVersion
  else
    let prev := findPrevious current images
    if prev = "" then .error .previousVersionNotFound
    else .ok prev

/-- performRollback's env-file flag for the docker run of the previous
version. -/
def rollbackEnvFlag (cfg : Config) : String :=
  if cfg.EnvFile ≠ "" then "--env-file ~/" ++ cfg.EnvFile else ""

/-- performRollback's compound swap-in body: stop the live container, rename
it to the backup name, start the previous version — joined by " && ".  Only
the detach flag, name, restart policy, port mapping, env-file flag and the
previous image appear. -/
def rollbackCommands (cfg : Config) (previousImage : String) : String :=
  "docker stop " ++ cfg.ContainerName ++ " && "
    ++ "docker rename " ++ cfg.ContainerName ++ " " ++ cfg.ContainerName ++ "_backup && "
    ++ "docker run -d --name " ++ cfg.ContainerName
    ++ " --restart unless-stopped -p " ++ cfg.HostPort ++ ":" ++ cfg.ContainerPort
    ++ " " ++ rollbackEnvFlag cfg ++ " " ++ previousImage

/-- performRollback's full remote swap-in command. -/
def rollbackCmd (cfg : Config) (previousImage : String) : String :=
  getCommand cfg ++ " \"" ++ rollbackCommands cfg previousImage ++ "\""

/-- restoreBackup's compound restore command: stop and remove whatever holds
the live name (tolerating absence), rename the backup back, start it. -/
def restoreCmd (cfg : Config) : String :=
  getCommand cfg ++ " \"docker stop " ++ cfg.ContainerName
    ++ " || true && docker rm " ++ cfg.ContainerName
    ++ " || true && docker rename " ++ cfg.ContainerName ++ "_backup "
    ++ cfg.ContainerName ++ " && docker start " ++ cfg.ContainerName ++ "\""

/-- Rollback's backup-container removal command. -/
def backupCleanupCmd (cfg : Config) : String :=
  getCommand cfg ++ " \"docker rm " ++ cfg.ContainerName ++ "_backup\""

deriving instance DecidableEq for Except

/-- The external world as seen through ssh.ExecuteCommand: a command string
maps either to a failure message or to the command's captured stdout text. -/
abbrev Exec := String → Except String String

/-- Description literals passed to ssh.ExecuteCommand at each call site. -/
def descCheckLocal : String := "Checking local Docker installation"

def descCheckRemote : String := "Checking remote Docker installation"

def descSSH : String := "Checking SSH connection"

def descBuild : String := "Building Docker image"

def descTransfer : String := "Transferring Docker image to server"

def descEnv : String := "Copying environment file to server"

def descRestart : String := "Restarting container on server"

def descList : String := "Listing existing releases"

def descVerify : String := "Verifying container status"

def descGetCurrent : String := "Getting current container information"

def descHistory : String := "Getting image history"

def descRollback : String := "Rolling back to previous version"

def descRollbackVerify : String := "Verifying rollback container status"

def descRestore : String := "Restoring previous version after failed rollback"

def descBackupCleanup : String := "Cleaning up backup container"

/-- config.Validate: fails iff host or user is empty. -/
def validate (cfg : Config) : Except PError Unit :=
  if cfg.Host = "" ∨ cfg.User = "" then .error .validationFailed else .ok ()

/-- One ssh.ExecuteCommand call whose stdout is not inspected: the result and
the one-entry trace of the description it logs. -/
def unitStep (exec : Exec) (cmd desc : String) : Except PError Unit × List String :=
  match exec cmd with
  | .error e => (.error (.cmdFailed desc e), [desc])
  | .ok _ => (.ok (), [desc])

/-- Sequencing of pipeline steps: a failure aborts immediately with the trace
so far; on success the next step runs and the traces are concatenated. -/
def pseq (a : Except PError Unit × List String)
    (b : Unit → Except PError Unit × List String) :
    Except PError Unit × List String :=
  match a with
  | (.error e, t) => (.error e, t)
  | (.ok _, t) => ((b ()).1, t ++ (b ()).2)

/-- docker.Check: the local probe, then the remote probe. -/
def dockerCheck (cfg : Config) (exec : Exec) : Except PError Unit × List String :=
  pseq (unitStep exec "docker info" descCheckLocal) fun _ =>
    unitStep exec (remoteDockerInfoCmd cfg) descCheckRemote

/-- ssh.Check as a pipeline step. -/
def sshCheck (cfg : Config) (exec : Exec) : Except PError Unit × List String :=
  unitStep exec (sshCheckCmd cfg) descSSH

/-- docker.Build as a pipeline step: the Dockerfile-existence check (os.Stat,
embedded as the `stat` oracle) precedes the build command. -/
def buildStep (cfg : Config) (exec : Exec) (stat : String → Bool) :
    Except PError Unit × List String :=
  if stat cfg.Dockerfile then unitStep exec (buildCmd cfg) descBuild
  else (.error (.dockerfileNotFound cfg.Dockerfile), [])

/-- docker.Transfer as a pipeline step. -/
def transferStep (cfg : Config) (exec : Exec) : Except PError Unit × List String :=
  unitStep exec (transferCmd cfg) descTransfer

/-- deploy.Deploy's conditional env-file copy: only performed when an
env-file path is configured; its absence is not an error. -/
def envStep (cfg : Config) (exec : Exec) : Except PError Unit × List String :=
  if cfg.EnvFile = "" then (.ok (), [])
  else unitStep exec (copyEnvCmd cfg) descEnv

/-- docker.cleanupOldReleases: list the tags; on listing failure return the
error (the caller downgrades it to a log line); otherwise issue one removal
command per tag selected by `removedTagsOf`, ignoring removal failures, and
succeed. -/
def cleanupStep (cfg : Config) (exec : Exec) : Except PError Unit × List String :=
  match exec (listTagsCmd cfg) with
  | .error e => (.error (.cmdFailed descList e), [descList])
  | .ok out =>
    (.ok (), descList ::
      (removedTagsOf out).map (fun t => "Removing old release " ++ t))

/-- docker.verifyContainer as a pipeline step: query the status; succeed
exactly when it contains "Up". -/
def verifyStep (cfg : Config) (exec : Exec) : Except PError Unit × List String :=
  match exec (verifyCmd cfg) with
  | .error e => (.error (.cmdFailed descVerify e), [descVerify])
  | .ok out =>
    (if statusIsUp out then .ok () else .error .containerNotRunning, [descVerify])

/-- docker.Deploy: the compound restart command, then cleanup whose failure
is only logged, then verification. -/
def dockerDeploy (cfg : Config) (exec : Exec) : Except PError Unit × List String :=
  pseq (unitStep exec (restartCmd cfg) descRestart) fun _ =>
    ((verifyStep cfg exec).1,
     (cleanupStep cfg exec).2 ++ (verifyStep cfg exec).2)

/-- deploy.Deploy: the full deployment pipeline with its trace of issued
command descriptions. -/
def DeployRun (cfg : Config) (exec : Exec) (stat : String → Bool) :
    Except PError Unit × List String :=
  pseq (validate cfg, []) fun _ =>
  pseq (dockerCheck cfg exec) fun _ =>
  pseq (sshCheck cfg exec) fun _ =>
  pseq (buildStep cfg exec stat) fun _ =>
  pseq (transferStep cfg exec) fun _ =>
  pseq (envStep cfg exec) fun _ =>
  dockerDeploy cfg exec

/-- deploy.performRollback: run the swap-in compound command; on failure run
the restore and report restored / restore-failed (the latter carrying both
errors); on success verify and, when the status does not contain "Up", run
the restore and report the verification variants (the restore-failed variant
carrying the restore error). -/
def performRollback (cfg : Config) (previousImage : String) (exec : Exec) :
    Except PError Unit × List String :=
  match exec (rollbackCmd cfg previousImage) with
  | .error e =>
    (match exec (restoreCmd cfg) with
     | .error re => (.error (.rollbackFailedRestoreFailed re e),
                     [descRollback, descRestore])
     | .ok _ => (.error (.rollbackFailedRestored e), [descRollback, descRestore]))
  | .ok _ =>
    match exec (verifyCmd cfg) with
    | .error e => (.error (.cmdFailed descRollbackVerify e),
                   [descRollback, descRollbackVerify])
    | .ok out =>
      if statusIsUp out then (.ok (), [descRollback, descRollbackVerify])
      else
        match exec (restoreCmd cfg) with
        | .error re => (.error (.rollbackVerifyFailedRestoreFailed re),
                        [descRollback, descRollbackVerify, descRestore])
        | .ok _ => (.error .rollbackVerifyFailedRestored,
                    [descRollback, descRollbackVerify, descRestore])

/-- deploy.Rollback: the full rollback pipeline with its trace.  The final
backup-container removal's result is discarded (cleanup failure is logged
only). -/
def RollbackRun (cfg : Config) (exec : Exec) : Except PError Unit × List String :=
  pseq (validate cfg, []) fun _ =>
    match sshCheck cfg exec with
    | (.error e, t) => (.error e, t)
    | (.ok _, t0) =>
      match exec (getCurrentImageCmd cfg) with
      | .error e => (.error (.cmdFailed descGetCurrent e), t0 ++ [descGetCurrent])
      | .ok curOut =>
        match exec (getImagesCmd cfg) with
        | .error e => (.error (.cmdFailed descHistory e),
                       t0 ++ [descGetCurrent, descHistory])
        | .ok histOut =>
          let t1 := t0 ++ [descGetCurrent, descHistory]
          match resolvePreviousImage (strSplitOn (strTrim histOut) "\n")
              (strTrim curOut) with
          | .error e => (.error e, t1)
          | .ok previousImage =>
            match performRollback cfg previousImage exec with
            | (.error e, t2) => (.error e, t1 ++ t2)
            | (.ok _, t2) =>
              (.ok (), t1 ++ t2 ++ [descBackupCleanup])

/-- A constant-success oracle whose stdout is a running status. -/
def execAllUp : Exec := fun _ => .ok "Up 3 seconds"

/-- An `os.Stat` oracle under which every path exists. -/
def statAll : String → Bool := fun _ => true

theorem subList_iff_occurs {n h : List Char} : subList n h = true ↔ n <:+: h := by
  induction h with
  | nil =>
    simp only [subList, List.isEmpty_iff]
    exact ⟨fun hn => hn ▸ List.infix_rfl, fun hn => List.eq_nil_of_infix_nil hn⟩
  | cons c t ih =>
    simp only [subList, Bool.or_eq_true, ih, List.isPrefixOf_iff_prefix]
    exact List.infix_cons_iff.symm

theorem strAppend_assoc (a b c : String) : (a ++ b) ++ c = a ++ (b ++ c) := by
  cases a with
  | mk la =>
    cases b with
    | mk lb =>
      cases c with
      | mk lc => exact congrArg String.mk (List.append_assoc la lb lc)

/-- A string built as `a ++ b ++ c` contains `b` as a substring. -/
theorem strContains_of_parts (a b c s : String) (hs : s = a ++ b ++ c) :
    strContainsSub s b = true := by
  subst hs
  unfold strContainsSub
  rw [subList_iff_occurs]
  simp only [String.data_append]
  exact ⟨a.data, c.data, rfl⟩

/-- Claim C3 (code_bug evaluation): with seven tags listed most-recent-first
(t7 newest, t1 oldest), cleanupOldReleases removes t6 and t7 — the two newest
tags — rather than the two oldest, because it reverses docker's
most-recent-first listing before dropping the first five entries; with five
or fewer tags it removes nothing, as claimed. -/
theorem cleanup_seven_tags_removes_newest :
    removedTagsOf "t7\nt6\nt5\nt4\nt3\nt2\nt1" = ["t6", "t7"] ∧
    removedTagsOf "t7\nt6\nt5\nt4\nt3\nt2\nt1" ≠ ["t2", "t1"] ∧
    removedTagsOf "t5\nt4\nt3\nt2\nt1" = [] ∧
    removedTagsOf "t1" = [] := by decide

/-- Claim C5 (counterexample): the stderr classifier is not the claimed
case-insensitive containment test — the line "ERROR: build failed"
case-insensitively contains "error" but the executor does not classify it as
an error line. -/
theorem stderr_classification_not_case_insensitive :
    ¬ (lineIsError "ERROR: build failed" = specLineIsErrorCI "ERROR: build failed") := by
  decide

/-- Claim C5 (amended): a stderr line is classified as an error line iff it
contains "error" or "Error" as an exact-case substring; error lines are
accumulated into the result's error text and echoed with an "ERROR: " prefix,
and every other line, from either stream, is accumulated into the result's
output text and echoed verbatim. -/
theorem stderr_line_routing (ls : List String) :
    readStderr ls =
      (concatLines (ls.filter (fun l => !lineIsError l)),
       concatLines (ls.filter (fun l => lineIsError l)),
       ls.map (fun l => if lineIsError l then "ERROR: " ++ l else l)) ∧
    ∀ ms, readStdout ms = (concatLines ms, ms) := by
  constructor
  · induction ls with
    | nil => rfl
    | cons l ls ih =>
      cases hl : lineIsError l <;>
        simp [readStderr, concatLines, hl, ih, List.filter_cons]
  · intro ms
    induction ms with
    | nil => rfl
    | cons m ms ih => simp [readStdout, concatLines, ih]

/-- Claim C6: with an empty host or an empty user, both pipelines fail with
the validation error and issue no command at all (their command trace is
empty). -/
theorem validation_halts_before_commands (cfg : Config) (exec : Exec)
    (stat : String → Bool) (h : cfg.Host = "" ∨ cfg.User = "") :
    DeployRun cfg exec stat = (.error .validationFailed, []) ∧
    RollbackRun cfg exec = (.error .validationFailed, []) := by
  have hv : validate cfg = .error .validationFailed := by
    unfold validate; rw [if_pos h]
  constructor
  · unfold DeployRun; rw [hv]; rfl
  · unfold RollbackRun; rw [hv]; rfl

/-- Claim C6 witness: a configuration with an empty host halts both
pipelines before any command, at a concrete oracle. -/
theorem validation_halts_before_commands_witness :
    DeployRun { cfg0 with Host := "" } execAllUp statAll =
      (.error .validationFailed, []) ∧
    RollbackRun { cfg0 with Host := "" } execAllUp =
      (.error .validationFailed, []) :=
  validation_halts_before_commands { cfg0 with Host := "" } execAllUp statAll
    (Or.inl rfl)

/-- Claim C7: container verification succeeds exactly when the queried status
text contains "Up", and otherwise fails with the container-not-running error;
"Up 3 seconds" passes, "" and "Exited (1) 2 seconds ago" fail. -/
theorem verification_up_gate :
    (∀ cfg exec out, exec (verifyCmd cfg) = .ok out →
      ((verifyStep cfg exec).1 = .ok () ↔ statusIsUp out = true) ∧
      (statusIsUp out = false →
        (verifyStep cfg exec).1 = .error .containerNotRunning)) ∧
    statusIsUp "Up 3 seconds" = true ∧
    statusIsUp "" = false ∧
    statusIsUp "Exited (1) 2 seconds ago" = false := by
  refine ⟨?_, by decide, by decide, by decide⟩
  intro cfg exec out hout
  unfold verifyStep
  rw [hout]
  cases hup : statusIsUp out <;> simp [hup]

/-- Claim C7 witness: at a concrete oracle returning "Up 3 seconds",
verification succeeds. -/
theorem verification_up_gate_witness :
    (verifyStep cfg0 execAllUp).1 = .ok () :=
  ((verification_up_gate.1 cfg0 execAllUp "Up 3 seconds" rfl).1).mpr (by decide)

theorem findPrevious_empty_of_not_found (current : String) :
    ∀ images, (∀ x ∈ images, imageNameOf x ≠ current) →
      findPrevious current images = "" := by
  intro images
  induction images with
  | nil => intro _; rfl
  | cons a tl ih =>
    intro h
    have ha : imageNameOf a ≠ current := h a (by simp)
    unfold findPrevious
    rw [if_neg (by simp [ha])]
    exact ih (fun x hx => h x (by simp [hx]))

theorem findPrevious_empty_of_only_last (current : String) :
    ∀ pre lastImg, (∀ x ∈ pre, imageNameOf x ≠ current) →
      findPrevious current (pre ++ [lastImg]) = "" := by
  intro pre
  induction pre with
  | nil =>
    intro lastImg _
    show findPrevious current [lastImg] = ""
    unfold findPrevious
    rw [if_neg (by simp)]
    rfl
  | cons a tl ih =>
    intro lastImg h
    have ha : imageNameOf a ≠ current := h a (by simp)
    show findPrevious current (a :: (tl ++ [lastImg])) = ""
    unfold findPrevious
    rw [if_neg (by simp [ha])]
    exact ih lastImg (fun x hx => h x (by simp [hx]))

theorem findPrevious_first_match (current : String) :
    ∀ pre img next post, (∀ x ∈ pre, imageNameOf x ≠ current) →
      imageNameOf img = current →
      findPrevious current (pre ++ img :: next :: post) = imageNameOf next := by
  intro pre
  induction pre with
  | nil =>
    intro img next post _ himg
    show findPrevious current (img :: next :: post) = imageNameOf next
    unfold findPrevious
    rw [if_pos ⟨himg, by simp⟩]
    rfl
  | cons a tl ih =>
    intro img next post h himg
    have ha : imageNameOf a ≠ current := h a (by simp)
    show findPrevious current (a :: (tl ++ img :: next :: post)) = imageNameOf next
    unfold findPrevious
    rw [if_neg (by simp [ha])]
    exact ih img next post (fun x hx => h x (by simp [hx])) himg

/-- Claim C2: previous-version resolution over the descending-ordered history
records — fewer than two records fails with the no-previous-version error;
when the current image is the repository:tag of the first matching record and
that record has a successor, the successor's repository:tag is resolved
(so for [v3, v2, v1] and current v2 the answer is v1); when the current image
is absent from the list, or matches only the final record (no successor), it
fails with the previous-version-not-found error. -/
theorem previous_version_resolution :
    (∀ images current, images.length < 2 →
      resolvePreviousImage images current = .error .noPreviousVersion) ∧
    (∀ pre img next post current,
      (∀ x ∈ pre, imageNameOf x ≠ current) → imageNameOf img = current →
      imageNameOf next ≠ "" →
      resolvePreviousImage (pre ++ img :: next :: post) current =
        .ok (imageNameOf next)) ∧
    (∀ images current, 2 ≤ images.length →
      (∀ x ∈ images, imageNameOf x ≠ current) →
      resolvePreviousImage images current = .error .previousVersionNotFound) ∧
    (∀ pre lastImg current, 2 ≤ (pre ++ [lastImg]).length →
      (∀ x ∈ pre, imageNameOf x ≠ current) →
      resolvePreviousImage (pre ++ [lastImg]) current =
        .error .previousVersionNotFound) ∧
    resolvePreviousImage ["v3___t3", "v2___t2", "v1___t1"] "v2" = .ok "v1" := by
  refine ⟨?_, ?_, ?_, ?_, by decide⟩
  · intro images current h
    unfold resolvePreviousImage
    rw [if_pos h]
  · intro pre img next post current hpre himg hnext
    unfold resolvePreviousImage
    rw [if_neg (by simp [List.length_append]; omega)]
    rw [findPrevious_first_match current pre img next post hpre himg]
    rw [if_neg hnext]
  · intro images current hlen h
    unfold resolvePreviousImage
    rw [if_neg (by omega)]
    rw [findPrevious_empty_of_not_found current images h]
    rfl
  · intro pre lastImg current hlen h
    unfold resolvePreviousImage
    rw [if_neg (by omega)]
    rw [findPrevious_empty_of_only_last current pre lastImg h]
    rfl

/-- Claim C2 witness: the spec's concrete scenario — records [v3, v2, v1]
descending by creation time, current image v2 — resolves to v1. -/
theorem previous_version_resolution_witness :
    resolvePreviousImage (["v3___t3"] ++ "v2___t2" :: "v1___t1" :: []) "v2" =
      .ok (imageNameOf "v1___t1") :=
  previous_version_resolution.2.1 ["v3___t3"] "v2___t2" "v1___t1" [] "v2"
    (by decide) (by decide) (by decide)

/-- Claim C1: whenever the swap-in compound command fails, or it succeeds but
the verification query returns a status not containing "Up", performRollback
issues the restore sequence exactly once; if the restore command succeeds the
reported error is the restored variant (for a failed swap-in it carries the
original error), and if the restore command fails the reported error is the
restore-failed variant (for a failed swap-in it carries both the restore
error and the original error; for a failed verification it carries the
restore error, the original failure being the verification itself). -/
theorem rollback_restore_exactly_once (cfg : Config) (prev : String)
    (exec : Exec) :
    (∀ e, exec (rollbackCmd cfg prev) = .error e →
      (performRollback cfg prev exec).2.count descRestore = 1 ∧
      (∀ s, exec (restoreCmd cfg) = .ok s →
        (performRollback cfg prev exec).1 =
          .error (.rollbackFailedRestored e)) ∧
      (∀ re, exec (restoreCmd cfg) = .error re →
        (performRollback cfg prev exec).1 =
          .error (.rollbackFailedRestoreFailed re e))) ∧
    (∀ s v, exec (rollbackCmd cfg prev) = .ok s →
      exec (verifyCmd cfg) = .ok v → statusIsUp v = false →
      (performRollback cfg prev exec).2.count descRestore = 1 ∧
      (∀ s2, exec (restoreCmd cfg) = .ok s2 →
        (performRollback cfg prev exec).1 =
          .error .rollbackVerifyFailedRestored) ∧
      (∀ re, exec (restoreCmd cfg) = .error re →
        (performRollback cfg prev exec).1 =
          .error (.rollbackVerifyFailedRestoreFailed re))) := by
  constructor
  · intro e he
    refine ⟨?_, ?_, ?_⟩
    · unfold performRollback
      cases hr : exec (restoreCmd cfg) <;> simp only [he, hr] <;> decide
    · intro s hs
      unfold performRollback
      simp only [he, hs]
    · intro re hre
      unfold performRollback
      simp only [he, hre]
  · intro s v hs hv hup
    refine ⟨?_, ?_, ?_⟩
    · unfold performRollback
      cases hr : exec (restoreCmd cfg) <;>
        simp only [hs, hv, hup, hr, Bool.false_eq_true, if_false] <;> decide
    · intro s2 hs2
      unfold performRollback
      simp only [hs, hv, hup, hs2, Bool.false_eq_true, if_false]
    · intro re hre
      unfold performRollback
      simp only [hs, hv, hup, hre, Bool.false_eq_true, if_false]

/-- A concrete oracle under which the swap-in command fails and the restore
command succeeds. -/
def execC1 : Exec := fun c =>
  if c = rollbackCmd cfg0 "app:1" then .error "boom" else .ok ""

/-- Claim C1 witness: with a failed swap-in and a successful restore, the
restore sequence is issued exactly once and the reported error is the
restored variant carrying the original error. -/
theorem rollback_restore_exactly_once_witness :
    (performRollback cfg0 "app:1" execC1).2.count descRestore = 1 ∧
    (performRollback cfg0 "app:1" execC1).1 =
      .error (.rollbackFailedRestored "boom") := by
  have h := (rollback_restore_exactly_once cfg0 "app:1" execC1).1 "boom"
    (by decide)
  exact ⟨h.1, h.2.1 "" (by decide)⟩

/-- Claim C10: the rollback swap-in command is independent of the configured
network, CPU limit, memory limit and volume mounts (it is unchanged when they
are cleared), while carrying the env-file flag when an env file is
configured; the deployment run arguments, in contrast, include each of those
flags whenever the corresponding field is set. -/
theorem rollback_omits_resource_flags :
    (∀ cfg prev,
      rollbackCommands cfg prev =
        rollbackCommands
          { cfg with Network := "", CPUs := "", Memory := "", Volumes := [] }
          prev) ∧
    (∀ cfg prev, cfg.EnvFile ≠ "" →
      strContainsSub (rollbackCommands cfg prev)
        ("--env-file ~/" ++ cfg.EnvFile) = true) ∧
    (∀ cfg, cfg.Network ≠ "" →
      "--network" ∈ containerConfig cfg ∧ cfg.Network ∈ containerConfig cfg) ∧
    (∀ cfg, cfg.CPUs ≠ "" →
      "--cpus" ∈ containerConfig cfg ∧ cfg.CPUs ∈ containerConfig cfg) ∧
    (∀ cfg, cfg.Memory ≠ "" →
      "--memory" ∈ containerConfig cfg ∧ cfg.Memory ∈ containerConfig cfg) ∧
    (∀ cfg v, v ∈ cfg.Volumes →
      "-v" ∈ containerConfig cfg ∧ v ∈ containerConfig cfg) := by
  refine ⟨?_, ?_, ?_, ?_, ?_, ?_⟩
  · intro cfg prev
    rfl
  · intro cfg prev h
    refine strContains_of_parts
      ("docker stop " ++ cfg.ContainerName ++ " && "
        ++ "docker rename " ++ cfg.ContainerName ++ " " ++ cfg.ContainerName
        ++ "_backup && "
        ++ "docker run -d --name " ++ cfg.ContainerName
        ++ " --restart unless-stopped -p " ++ cfg.HostPort ++ ":"
        ++ cfg.ContainerPort ++ " ")
      ("--env-file ~/" ++ cfg.EnvFile) (" " ++ prev) _ ?_
    unfold rollbackCommands rollbackEnvFlag
    rw [if_pos h]
    simp only [strAppend_assoc]
  · intro cfg h
    unfold containerConfig
    rw [if_pos h]
    constructor <;>
      exact List.mem_append_left _ (List.mem_append_left _
        (List.mem_append_left _ (List.mem_append_left _
          (List.mem_append_left _ (List.mem_append_right _ (by simp))))))
  · intro cfg h
    unfold containerConfig
    rw [if_pos h]
    constructor <;>
      exact List.mem_append_left _ (List.mem_append_left _
        (List.mem_append_left _ (List.mem_append_left _
          (List.mem_append_right _ (by simp)))))
  · intro cfg h
    unfold containerConfig
    rw [if_pos h]
    constructor <;>
      exact List.mem_append_left _ (List.mem_append_left _
        (List.mem_append_left _ (List.mem_append_right _ (by simp))))
  · intro cfg v hv
    have hmem : ∀ x ∈ (["-v", v] : List String),
        x ∈ (cfg.Volumes.map (fun w => ["-v", w])).flatten := by
      intro x hx
      exact List.mem_flatten.2 ⟨["-v", v], List.mem_map_of_mem _ hv, hx⟩
    constructor <;>
      exact List.mem_append_left _ (List.mem_append_left _
        (List.mem_append_right _ (hmem _ (by simp))))

/-- A configuration with every optional resource field set. -/
def cfgFull : Config :=
  { cfg0 with
    Network := "net0"
    CPUs := "2"
    Memory := "512m"
    Volumes := ["/a:/b"]
    EnvFile := ".env" }

/-- Claim C10 witness: at a configuration with network, cpus, memory, volumes
and env file all set, the swap-in command equals the one for the cleared
configuration, carries the env-file flag, and the deployment arguments carry
the network flag. -/
theorem rollback_omits_resource_flags_witness :
    rollbackCommands cfgFull "app:1" =
      rollbackCommands
        { cfgFull with Network := "", CPUs := "", Memory := "", Volumes := [] }
        "app:1" ∧
    strContainsSub (rollbackCommands cfgFull "app:1")
      ("--env-file ~/" ++ cfgFull.EnvFile) = true ∧
    ("--network" ∈ containerConfig cfgFull ∧
      cfgFull.Network ∈ containerConfig cfgFull) :=
  ⟨rollback_omits_resource_flags.1 cfgFull "app:1",
   rollback_omits_resource_flags.2.1 cfgFull "app:1" (by decide),
   rollback_omits_resource_flags.2.2.1 cfgFull (by decide)⟩

theorem pseq_first {a : Except PError Unit × List String}
    {b : Unit → Except PError Unit × List String}
    (h : (pseq a b).1 = .ok ()) : a.1 = .ok () := by
  obtain ⟨r, t⟩ := a
  cases r with
  | error e => simp [pseq] at h
  | ok u => rfl

theorem pseq_eq {a : Except PError Unit × List String}
    {b : Unit → Except PError Unit × List String}
    (h : a.1 = .ok ()) : pseq a b = ((b ()).1, a.2 ++ (b ()).2) := by
  obtain ⟨r, t⟩ := a
  cases r with
  | error e => simp at h
  | ok u => rfl

theorem unitStep_ok {exec : Exec} {cmd desc : String}
    (h : (unitStep exec cmd desc).1 = .ok ()) :
    unitStep exec cmd desc = (.ok (), [desc]) := by
  unfold unitStep at h ⊢
  cases hc : exec cmd <;> simp [hc] at h ⊢

theorem dockerCheck_ok {cfg : Config} {exec : Exec}
    (h : (dockerCheck cfg exec).1 = .ok ()) :
    dockerCheck cfg exec = (.ok (), [descCheckLocal, descCheckRemote]) := by
  unfold dockerCheck at h ⊢
  have h1 := pseq_first h
  rw [pseq_eq h1] at h ⊢
  rw [unitStep_ok h1, unitStep_ok h]
  rfl

theorem buildStep_ok {cfg : Config} {exec : Exec} {stat : String → Bool}
    (h : (buildStep cfg exec stat).1 = .ok ()) :
    buildStep cfg exec stat = (.ok (), [descBuild]) := by
  unfold buildStep at h ⊢
  cases hs : stat cfg.Dockerfile
  · rw [hs] at h; simp at h
  · rw [hs] at h
    simp only [if_pos rfl] at h ⊢
    exact unitStep_ok h

theorem sshCheck_ok {cfg : Config} {exec : Exec}
    (h : (sshCheck cfg exec).1 = .ok ()) :
    sshCheck cfg exec = (.ok (), [descSSH]) :=
  unitStep_ok h

theorem transferStep_ok {cfg : Config} {exec : Exec}
    (h : (transferStep cfg exec).1 = .ok ()) :
    transferStep cfg exec = (.ok (), [descTransfer]) :=
  unitStep_ok h

theorem envStep_ok {cfg : Config} {exec : Exec}
    (h : (envStep cfg exec).1 = .ok ()) :
    envStep cfg exec = (.ok (), if cfg.EnvFile = "" then [] else [descEnv]) := by
  unfold envStep at h ⊢
  by_cases he : cfg.EnvFile = ""
  · rw [if_pos he] at h ⊢
    rw [if_pos he]
  · rw [if_neg he] at h ⊢
    rw [if_neg he]
    exact unitStep_ok h

theorem verifyStep_trace (cfg : Config) (exec : Exec) :
    (verifyStep cfg exec).2 = [descVerify] := by
  unfold verifyStep
  cases hc : exec (verifyCmd cfg) <;> rfl

theorem cleanupStep_trace (cfg : Config) (exec : Exec) :
    ∃ rems, (cleanupStep cfg exec).2 = descList :: rems := by
  unfold cleanupStep
  cases hc : exec (listTagsCmd cfg)
  · exact ⟨[], rfl⟩
  · exact ⟨_, rfl⟩

theorem dockerDeploy_ok {cfg : Config} {exec : Exec}
    (h : (dockerDeploy cfg exec).1 = .ok ()) :
    ∃ rems, dockerDeploy cfg exec =
      (.ok (), [descRestart, descList] ++ rems ++ [descVerify]) := by
  unfold dockerDeploy at h ⊢
  have h1 := pseq_first h
  rw [pseq_eq h1] at h ⊢
  have hv : (verifyStep cfg exec).1 = .ok () := by simpa using h
  obtain ⟨rems, hr⟩ := cleanupStep_trace cfg exec
  refine ⟨rems, ?_⟩
  rw [unitStep_ok h1, hr, verifyStep_trace, hv]
  simp

/-- Claim C4 (amended): the deployment pipeline performs its stages in the
fixed linear order Validated, DockerChecked (local then remote), SSHChecked,
Built, Transferred, optional EnvCopied, Deployed, CleanedUp, and finally
Verified: on a successful run the command trace is exactly the stage
descriptions in that order (with the cleanup removals, if any, between the
release listing and the verification), so old-image cleanup is performed
after the container restart but BEFORE container verification. -/
theorem deploy_stage_order (cfg : Config) (exec : Exec) (stat : String → Bool)
    (h : (DeployRun cfg exec stat).1 = .ok ()) :
    ∃ rems, (DeployRun cfg exec stat).2 =
      [descCheckLocal, descCheckRemote, descSSH, descBuild, descTransfer] ++
      (if cfg.EnvFile = "" then [] else [descEnv]) ++
      [descRestart, descList] ++ rems ++ [descVerify] := by
  unfold DeployRun at h ⊢
  have h0 := pseq_first h
  rw [pseq_eq h0] at h ⊢
  have h1 := pseq_first h
  rw [pseq_eq h1] at h ⊢
  rw [dockerCheck_ok h1] at h ⊢
  have h2 := pseq_first h
  rw [pseq_eq h2] at h ⊢
  rw [sshCheck_ok h2] at h ⊢
  have h3 := pseq_first h
  rw [pseq_eq h3] at h ⊢
  rw [buildStep_ok h3] at h ⊢
  have h4 := pseq_first h
  rw [pseq_eq h4] at h ⊢
  rw [transferStep_ok h4] at h ⊢
  have h5 := pseq_first h
  rw [pseq_eq h5] at h ⊢
  rw [envStep_ok h5] at h ⊢
  obtain ⟨rems, hdd⟩ := dockerDeploy_ok h
  rw [hdd]
  refine ⟨rems, ?_⟩
  by_cases he : cfg.EnvFile = "" <;> simp [he]

/-- An oracle for a fully successful deployment: every command succeeds, and
the container status query reports a running container. -/
def execC4 : Exec := fun c =>
  if c = verifyCmd cfg0 then .ok "Up 1 second" else .ok ""

/-- Claim C4 (counterexample): a concrete fully successful deployment run in
which old-image cleanup is performed strictly BEFORE container verification —
the trace places the release listing at index 6 and the verification at
index 7 — refuting the claimed Verified-then-CleanedUp ordering in which
cleanup happens only after verification has succeeded. -/
theorem deploy_cleanup_before_verify_cex :
    (DeployRun cfg0 execC4 statAll).1 = .ok () ∧
    (DeployRun cfg0 execC4 statAll).2 =
      [descCheckLocal, descCheckRemote, descSSH, descBuild, descTransfer,
       descRestart, descList, descVerify] ∧
    (DeployRun cfg0 execC4 statAll).2.indexOf descList <
      (DeployRun cfg0 execC4 statAll).2.indexOf descVerify := by
  decide

/-- Claim C4 witness: the amended stage-order theorem instantiated at the
concrete successful run. -/
theorem deploy_stage_order_witness :
    ∃ rems, (DeployRun cfg0 execC4 statAll).2 =
      [descCheckLocal, descCheckRemote, descSSH, descBuild, descTransfer] ++
      (if cfg0.EnvFile = "" then [] else [descEnv]) ++
      [descRestart, descList] ++ rems ++ [descVerify] :=
  deploy_stage_order cfg0 execC4 statAll (by decide)

/-- Claim C8: when every other stage of a run succeeds, a failure of
old-image cleanup (its listing command, in deployment) or of
backup-container removal (in rollback) is never propagated — the pipeline
still reports overall success. -/
theorem cleanup_failure_not_propagated :
    (∀ cfg exec stat e vout,
      cfg.Host ≠ "" → cfg.User ≠ "" →
      (∃ s, exec "docker info" = Except.ok s) →
      (∃ s, exec (remoteDockerInfoCmd cfg) = Except.ok s) →
      (∃ s, exec (sshCheckCmd cfg) = Except.ok s) →
      stat cfg.Dockerfile = true →
      (∃ s, exec (buildCmd cfg) = Except.ok s) →
      (∃ s, exec (transferCmd cfg) = Except.ok s) →
      (cfg.EnvFile = "" ∨ ∃ s, exec (copyEnvCmd cfg) = Except.ok s) →
      (∃ s, exec (restartCmd cfg) = Except.ok s) →
      exec (listTagsCmd cfg) = .error e →
      exec (verifyCmd cfg) = .ok vout → statusIsUp vout = true →
      (DeployRun cfg exec stat).1 = .ok ()) ∧
    (∀ cfg exec curOut histOut prevImg sw vout e,
      cfg.Host ≠ "" → cfg.User ≠ "" →
      (∃ s, exec (sshCheckCmd cfg) = Except.ok s) →
      exec (getCurrentImageCmd cfg) = .ok curOut →
      exec (getImagesCmd cfg) = .ok histOut →
      resolvePreviousImage (strSplitOn (strTrim histOut) "\n") (strTrim curOut) =
        .ok prevImg →
      exec (rollbackCmd cfg prevImg) = .ok sw →
      exec (verifyCmd cfg) = .ok vout → statusIsUp vout = true →
      exec (backupCleanupCmd cfg) = .error e →
      (RollbackRun cfg exec).1 = .ok ()) := by
  constructor
  · intro cfg exec stat e vout hH hU h1 h2 h3 hstat h4 h5 henv h6 hlist hver hup
    obtain ⟨s1, h1⟩ := h1
    obtain ⟨s2, h2⟩ := h2
    obtain ⟨s3, h3⟩ := h3
    obtain ⟨s4, h4⟩ := h4
    obtain ⟨s5, h5⟩ := h5
    obtain ⟨s6, h6⟩ := h6
    have hval : validate cfg = .ok () := by
      unfold validate
      rw [if_neg]
      simp [hH, hU]
    have h0 : ((validate cfg, ([] : List String)) :
        Except PError Unit × List String).1 = .ok () := by
      rw [hval]
    have hdc : (dockerCheck cfg exec).1 = .ok () := by
      have hu1 : (unitStep exec "docker info" descCheckLocal).1 = .ok () := by
        simp [unitStep, h1]
      unfold dockerCheck
      rw [pseq_eq hu1]
      simp [unitStep, h2]
    have hssh : (sshCheck cfg exec).1 = .ok () := by
      simp [sshCheck, unitStep, h3]
    have hb : (buildStep cfg exec stat).1 = .ok () := by
      unfold buildStep
      rw [hstat]
      simp [unitStep, h4]
    have ht : (transferStep cfg exec).1 = .ok () := by
      simp [transferStep, unitStep, h5]
    have henvok : (envStep cfg exec).1 = .ok () := by
      unfold envStep
      rcases henv with he | ⟨se, he⟩
      · rw [if_pos he]
      · by_cases hc : cfg.EnvFile = ""
        · rw [if_pos hc]
        · rw [if_neg hc]
          simp [unitStep, he]
    have hdd : (dockerDeploy cfg exec).1 = .ok () := by
      have hu6 : (unitStep exec (restartCmd cfg) descRestart).1 = .ok () := by
        simp [unitStep, h6]
      unfold dockerDeploy
      rw [pseq_eq hu6]
      simp [verifyStep, hver, hup]
    unfold DeployRun
    rw [pseq_eq h0, pseq_eq hdc, pseq_eq hssh, pseq_eq hb, pseq_eq ht,
        pseq_eq henvok]
    simpa using hdd
  · intro cfg exec curOut histOut prevImg sw vout e hH hU h3 hcur hhist hres
      hswap hver hup hbc
    obtain ⟨s3, h3⟩ := h3
    have hval : validate cfg = .ok () := by
      unfold validate
      rw [if_neg]
      simp [hH, hU]
    have h0 : ((validate cfg, ([] : List String)) :
        Except PError Unit × List String).1 = .ok () := by
      rw [hval]
    have hssh : sshCheck cfg exec = (.ok (), [descSSH]) :=
      sshCheck_ok (by simp [sshCheck, unitStep, h3])
    have hpr : performRollback cfg prevImg exec =
        (.ok (), [descRollback, descRollbackVerify]) := by
      unfold performRollback
      simp [hswap, hver, hup]
    unfold RollbackRun
    rw [pseq_eq h0, hssh]
    simp [hcur, hhist, hres, hpr]

/-- An oracle for a successful deployment whose release-listing command
fails. -/
def execC8d : Exec := fun c =>
  if c = listTagsCmd cfg0 then .error "rmi failed"
  else if c = verifyCmd cfg0 then .ok "Up 1 second"
  else .ok ""

/-- An oracle for a successful rollback whose backup-container removal
fails. -/
def execC8r : Exec := fun c =>
  if c = backupCleanupCmd cfg0 then .error "rm failed"
  else if c = getCurrentImageCmd cfg0 then .ok "app:2"
  else if c = getImagesCmd cfg0 then .ok "app:2___2024\napp:1___2023"
  else if c = verifyCmd cfg0 then .ok "Up 1 second"
  else .ok ""

/-- Claim C8 witness: a deployment whose tag listing fails and a rollback
whose backup removal fails both still report overall success. -/
theorem cleanup_failure_not_propagated_witness :
    (DeployRun cfg0 execC8d statAll).1 = .ok () ∧
    (RollbackRun cfg0 execC8r).1 = .ok () :=
  ⟨cleanup_failure_not_propagated.1 cfg0 execC8d statAll "rmi failed"
      "Up 1 second" (by decide) (by decide) ⟨"", by decide⟩ ⟨"", by decide⟩
      ⟨"", by decide⟩ (by decide) ⟨"", by decide⟩ ⟨"", by decide⟩
      (Or.inl rfl) ⟨"", by decide⟩ (by decide) (by decide) (by decide),
   cleanup_failure_not_propagated.2 cfg0 execC8r "app:2"
      "app:2___2024\napp:1___2023" "app:1" "" "Up 1 second" "rm failed"
      (by decide) (by decide) ⟨"", by decide⟩ (by decide) (by decide)
      (by decide) (by decide) (by decide) (by decide) (by decide)⟩
